import Mathlib

/-!
Shallow embedding of `src/data_ingestion/data_ingestion.py`
(repository Treasure-mars/data_ingestion).

The module exposes three functions — `create_db_engine`, `query_data`,
`read_from_web_CSV` — each a thin wrapper around an external library call
(SQLAlchemy `create_engine` / `connect`, pandas `read_sql_query` /
`read_csv`) plus logging and a try/except dispatch.  We embed each
function as a Lean function of the *outcome* of the external call
(success with a value, or an exception of a given kind and message) and
record, for each call, the returned value or propagated exception, the
sequence of emitted log lines, and the sequence of connection
open/close events.
-/

/-- The Python exception kinds the module distinguishes (by its
`except` clauses) plus `nameError`, which arises from evaluating an
unbound variable. -/
inductive ExcKind where
  | valueError
  | importError
  | emptyDataError
  | nameError
  | otherError
deriving DecidableEq, Repr

/-- A Python exception: its kind and its message text. -/
structure Exc where
  kind : ExcKind
  msg : String
deriving DecidableEq, Repr

/-- Logging levels used by the module (`logger.info` / `logger.error`). -/
inductive LogLevel where
  | info
  | error
deriving DecidableEq, Repr

/-- One emitted log line: level and message. -/
structure LogLine where
  level : LogLevel
  msg : String
deriving DecidableEq, Repr

/-- Connection lifecycle events observable from `engine.connect()`
entered and exited as a context manager. -/
inductive ConnEvent where
  | openConn
  | closeConn
deriving DecidableEq, Repr

/-- A pandas DataFrame, abstracted to its named columns and its rows. -/
structure DataFrame where
  columns : List String
  rows : List (List String)
deriving DecidableEq, Repr

/-- `df.empty` in pandas: true iff either axis has length zero. -/
def DataFrame.empty (df : DataFrame) : Bool :=
  df.rows.isEmpty || df.columns.isEmpty

instance {ε α : Type} [DecidableEq ε] [DecidableEq α] : DecidableEq (Except ε α) := fun a b =>
  match a, b with
  | Except.ok x, Except.ok y =>
    if h : x = y then isTrue (congrArg Except.ok h)
    else isFalse (fun hh => h (Except.ok.inj hh))
  | Except.ok _, Except.error _ => isFalse (fun hh => Except.noConfusion hh)
  | Except.error _, Except.ok _ => isFalse (fun hh => Except.noConfusion hh)
  | Except.error x, Except.error y =>
    if h : x = y then isTrue (congrArg Except.error h)
    else isFalse (fun hh => h (Except.error.inj hh))

/-- Outcome of `pd.read_sql_query(text(sql_query), connection)`:
either a DataFrame or a raised exception. -/
inductive ExecOutcome where
  | ok (df : DataFrame)
  | raises (e : Exc)
deriving DecidableEq, Repr

/-- Observable behaviour of one `query_data` call. -/
structure QueryRun where
  result : Except Exc DataFrame
  logs : List LogLine
  conns : List ConnEvent
deriving DecidableEq, Repr

/-- Message of the ValueError raised on an empty query result. -/
def emptyMsg : String := "The query returned an empty DataFrame."

/-- The EmptyResult error of the spec: the ValueError raised when the
query yields zero rows. -/
def emptyResultExc : Exc := ⟨ExcKind.valueError, emptyMsg⟩

/-- The body of the `try` in `query_data`: `with engine.connect() as
connection:` opens a connection, runs the query, and closes the
connection on both normal and exceptional exit of the `with` block;
then the emptiness check and the success log run after the `with`
block.  Returns connection events, log lines emitted by the body, and
the body result (value or exception escaping the `try` body). -/
def queryTryBody (outcome : ExecOutcome) :
    List ConnEvent × List LogLine × Except Exc DataFrame :=
  match outcome with
  | ExecOutcome.raises e => ([ConnEvent.openConn, ConnEvent.closeConn], [], Except.error e)
  | ExecOutcome.ok df =>
    if df.empty then
      ([ConnEvent.openConn, ConnEvent.closeConn],
       [⟨LogLevel.error, emptyMsg⟩],
       Except.error emptyResultExc)
    else
      ([ConnEvent.openConn, ConnEvent.closeConn],
       [⟨LogLevel.info, "Query executed successfully."⟩],
       Except.ok df)

/-- `query_data(engine, sql_query)`.  The `except ValueError as e`
clause catches any ValueError escaping the `try` body — including the
one the body itself raises on an empty DataFrame — logs, and re-raises
it; the `except Exception as e` clause does the same for every other
exception. -/
def query_data (outcome : ExecOutcome) : QueryRun :=
  let r := queryTryBody outcome
  match r.2.2 with
  | Except.ok df => { result := Except.ok df, logs := r.2.1, conns := r.1 }
  | Except.error e =>
    if e.kind = ExcKind.valueError then
      { result := Except.error e
        logs := r.2.1 ++ [⟨LogLevel.error, "SQL query failed. Error: " ++ e.msg⟩]
        conns := r.1 }
    else
      { result := Except.error e
        logs := r.2.1 ++ [⟨LogLevel.error, "An error occurred while querying the database. Error: " ++ e.msg⟩]
        conns := r.1 }

/-- Outcome of `create_engine(db_path)`: the engine object is opaque,
so success carries no data. -/
inductive EngineOutcome where
  | ok
  | raises (e : Exc)
deriving DecidableEq, Repr

/-- Outcome of the probe `engine.connect()`. -/
inductive ProbeOutcome where
  | ok
  | raises (e : Exc)
deriving DecidableEq, Repr

/-- Observable behaviour of one `create_db_engine` call; the returned
engine is opaque, so the success value is `Unit`. -/
structure EngineRun where
  result : Except Exc Unit
  logs : List LogLine
  conns : List ConnEvent
deriving DecidableEq, Repr

/-- Message of the NameError produced by `raise e` when the name `e`
is unbound. -/
def nameErrorMsg : String := "name e is not defined"

/-- The body of the `try` in `create_db_engine`: construct the engine,
then `with engine.connect() as conn: pass` as a probe (one open, one
close on success; if `connect()` itself raises, no event), then the
success log. -/
def engineTryBody (ce : EngineOutcome) (probe : ProbeOutcome) :
    List ConnEvent × List LogLine × Except Exc Unit :=
  match ce with
  | EngineOutcome.raises e => ([], [], Except.error e)
  | EngineOutcome.ok =>
    match probe with
    | ProbeOutcome.raises e => ([], [], Except.error e)
    | ProbeOutcome.ok =>
      ([ConnEvent.openConn, ConnEvent.closeConn],
       [⟨LogLevel.info, "Database engine created successfully."⟩],
       Except.ok ())

/-- `create_db_engine(db_path)`.  The `except ImportError:` clause
binds no name, yet executes `raise e`; evaluating the unbound name `e`
there raises a NameError, so the ImportError itself never propagates.
The `except Exception as e` clause logs and re-raises the original
exception. -/
def create_db_engine (ce : EngineOutcome) (probe : ProbeOutcome) : EngineRun :=
  let r := engineTryBody ce probe
  match r.2.2 with
  | Except.ok _ => { result := Except.ok (), logs := r.2.1, conns := r.1 }
  | Except.error e =>
    if e.kind = ExcKind.importError then
      { result := Except.error ⟨ExcKind.nameError, nameErrorMsg⟩
        logs := r.2.1 ++ [⟨LogLevel.error, "SQLAlchemy is required to use this function. Please install it first."⟩]
        conns := r.1 }
    else
      { result := Except.error e
        logs := r.2.1 ++ [⟨LogLevel.error, "Failed to create database engine. Error: " ++ e.msg⟩]
        conns := r.1 }

/-- Outcome of `pd.read_csv(URL)`. -/
inductive FetchOutcome where
  | ok (df : DataFrame)
  | raises (e : Exc)
deriving DecidableEq, Repr

/-- Observable behaviour of one `read_from_web_CSV` call. -/
structure FetchRun where
  result : Except Exc DataFrame
  logs : List LogLine
deriving DecidableEq, Repr

/-- `read_from_web_CSV(URL)`: on success log and return the parsed
DataFrame; on `pd.errors.EmptyDataError` log the check-the-URL
guidance and re-raise; on any other exception log the generic message
and re-raise. -/
def read_from_web_CSV (outcome : FetchOutcome) : FetchRun :=
  match outcome with
  | FetchOutcome.ok df =>
    { result := Except.ok df
      logs := [⟨LogLevel.info, "CSV file read successfully from the web."⟩] }
  | FetchOutcome.raises e =>
    if e.kind = ExcKind.emptyDataError then
      { result := Except.error e
        logs := [⟨LogLevel.error, "The URL does not point to a valid CSV file. Please check the URL and try again."⟩] }
    else
      { result := Except.error e
        logs := [⟨LogLevel.error, "Failed to read CSV from the web. Error: " ++ e.msg⟩] }

/-- `read_from_web_CSV` as called on a URL string: the function passes
its argument to `pd.read_csv` unchanged and inspects nothing about it;
`readCsv` is the environment mapping each input string to the outcome
of `pd.read_csv` on it. -/
def read_from_web_CSV_url (readCsv : String → FetchOutcome) (URL : String) : FetchRun :=
  read_from_web_CSV (readCsv URL)

/-- Split a character list at every occurrence of `c` (the separator
is dropped; `n` separators yield `n + 1` pieces). -/
def splitOnChar (c : Char) : List Char → List (List Char)
  | [] => [[]]
  | x :: xs =>
    match splitOnChar c xs with
    | [] => [[x]]
    | y :: ys => if x = c then [] :: y :: ys else (x :: y) :: ys

/-- Split a string at every occurrence of the character `c`. -/
def splitString (c : Char) (s : String) : List String :=
  (splitOnChar c s.data).map (fun l => ⟨l⟩)

/-- Modelled from the spec: `pandas.read_csv` (an external dependency,
not part of this repository) applied to the lines of a well-formed CSV
text — "download and parse the resource in one step into a tabular
result with columns inferred from the header row"; blank lines are
skipped, every other line is one data row split at commas. -/
def parseCsvLines (lines : List String) : DataFrame :=
  match lines with
  | [] => ⟨[], []⟩
  | header :: rest =>
    ⟨splitString ',' header,
     (rest.filter (fun l => !l.isEmpty)).map (fun l => splitString ',' l)⟩

/-- Modelled from the spec: `pandas.read_csv` on a CSV text — split
into lines, then parse header and data rows. -/
def parseCsv (s : String) : DataFrame :=
  parseCsvLines (splitString '\n' s)

/-! ### Evaluation lemmas, one per control path -/

lemma query_data_ok_empty (df : DataFrame) (h : df.empty = true) :
    query_data (ExecOutcome.ok df) =
      { result := Except.error emptyResultExc
        logs := [⟨LogLevel.error, emptyMsg⟩,
                 ⟨LogLevel.error, "SQL query failed. Error: " ++ emptyMsg⟩]
        conns := [ConnEvent.openConn, ConnEvent.closeConn] } := by
  simp [query_data, queryTryBody, h, emptyResultExc]

lemma query_data_ok_nonempty (df : DataFrame) (h : df.empty = false) :
    query_data (ExecOutcome.ok df) =
      { result := Except.ok df
        logs := [⟨LogLevel.info, "Query executed successfully."⟩]
        conns := [ConnEvent.openConn, ConnEvent.closeConn] } := by
  simp [query_data, queryTryBody, h]

lemma query_data_raises_ve (e : Exc) (h : e.kind = ExcKind.valueError) :
    query_data (ExecOutcome.raises e) =
      { result := Except.error e
        logs := [⟨LogLevel.error, "SQL query failed. Error: " ++ e.msg⟩]
        conns := [ConnEvent.openConn, ConnEvent.closeConn] } := by
  simp [query_data, queryTryBody, h]

lemma query_data_raises_other (e : Exc) (h : e.kind ≠ ExcKind.valueError) :
    query_data (ExecOutcome.raises e) =
      { result := Except.error e
        logs := [⟨LogLevel.error, "An error occurred while querying the database. Error: " ++ e.msg⟩]
        conns := [ConnEvent.openConn, ConnEvent.closeConn] } := by
  simp [query_data, queryTryBody, h]

lemma create_db_engine_ok :
    create_db_engine EngineOutcome.ok ProbeOutcome.ok =
      { result := Except.ok ()
        logs := [⟨LogLevel.info, "Database engine created successfully."⟩]
        conns := [ConnEvent.openConn, ConnEvent.closeConn] } := by
  simp [create_db_engine, engineTryBody]

lemma create_db_engine_create_import (e : Exc) (pr : ProbeOutcome)
    (h : e.kind = ExcKind.importError) :
    create_db_engine (EngineOutcome.raises e) pr =
      { result := Except.error ⟨ExcKind.nameError, nameErrorMsg⟩
        logs := [⟨LogLevel.error, "SQLAlchemy is required to use this function. Please install it first."⟩]
        conns := [] } := by
  simp [create_db_engine, engineTryBody, h]

lemma create_db_engine_create_other (e : Exc) (pr : ProbeOutcome)
    (h : e.kind ≠ ExcKind.importError) :
    create_db_engine (EngineOutcome.raises e) pr =
      { result := Except.error e
        logs := [⟨LogLevel.error, "Failed to create database engine. Error: " ++ e.msg⟩]
        conns := [] } := by
  simp [create_db_engine, engineTryBody, h]

lemma create_db_engine_probe_import (e : Exc) (h : e.kind = ExcKind.importError) :
    create_db_engine EngineOutcome.ok (ProbeOutcome.raises e) =
      { result := Except.error ⟨ExcKind.nameError, nameErrorMsg⟩
        logs := [⟨LogLevel.error, "SQLAlchemy is required to use this function. Please install it first."⟩]
        conns := [] } := by
  simp [create_db_engine, engineTryBody, h]

lemma create_db_engine_probe_other (e : Exc) (h : e.kind ≠ ExcKind.importError) :
    create_db_engine EngineOutcome.ok (ProbeOutcome.raises e) =
      { result := Except.error e
        logs := [⟨LogLevel.error, "Failed to create database engine. Error: " ++ e.msg⟩]
        conns := [] } := by
  simp [create_db_engine, engineTryBody, h]

lemma read_from_web_CSV_ok (df : DataFrame) :
    read_from_web_CSV (FetchOutcome.ok df) =
      { result := Except.ok df
        logs := [⟨LogLevel.info, "CSV file read successfully from the web."⟩] } := rfl

lemma read_from_web_CSV_raises_ede (e : Exc) (h : e.kind = ExcKind.emptyDataError) :
    read_from_web_CSV (FetchOutcome.raises e) =
      { result := Except.error e
        logs := [⟨LogLevel.error, "The URL does not point to a valid CSV file. Please check the URL and try again."⟩] } := by
  simp [read_from_web_CSV, h]

lemma read_from_web_CSV_raises_other (e : Exc) (h : e.kind ≠ ExcKind.emptyDataError) :
    read_from_web_CSV (FetchOutcome.raises e) =
      { result := Except.error e
        logs := [⟨LogLevel.error, "Failed to read CSV from the web. Error: " ++ e.msg⟩] } := by
  simp [read_from_web_CSV, h]

/-! ### Claim theorems -/

/-- C1: a query that completes with zero rows makes `query_data` fail
with the EmptyResult error (the ValueError carrying the
empty-DataFrame message) instead of returning; consequently every
DataFrame successfully returned by `query_data` has at least one
row. -/
theorem query_data_empty_result_error :
    (∀ df : DataFrame, df.empty = true →
      (query_data (ExecOutcome.ok df)).result = Except.error emptyResultExc) ∧
    (∀ o : ExecOutcome, ∀ df : DataFrame,
      (query_data o).result = Except.ok df → df.rows ≠ []) := by
  constructor
  · intro df h
    rw [query_data_ok_empty df h]
  · intro o df h
    cases o with
    | raises e =>
      by_cases hk : e.kind = ExcKind.valueError
      · rw [query_data_raises_ve e hk] at h
        exact absurd h (by simp)
      · rw [query_data_raises_other e hk] at h
        exact absurd h (by simp)
    | ok d =>
      by_cases hd : d.empty = true
      · rw [query_data_ok_empty d hd] at h
        exact absurd h (by simp)
      · rw [query_data_ok_nonempty d (Bool.eq_false_iff.mpr hd)] at h
        have hdf : d = df := by simpa using h
        subst hdf
        intro hrows
        apply hd
        simp [DataFrame.empty, hrows]

/-- C1 witness: the concrete empty result (columns `["a"]`, no rows)
makes `query_data` fail with the EmptyResult error, and a concrete
returned DataFrame has a nonempty row list. -/
theorem query_data_empty_result_error_witness :
    (query_data (ExecOutcome.ok ⟨["a"], []⟩)).result = Except.error emptyResultExc ∧
    (⟨["a"], [["1"]]⟩ : DataFrame).rows ≠ [] :=
  ⟨query_data_empty_result_error.1 ⟨["a"], []⟩ (by decide),
   query_data_empty_result_error.2 (ExecOutcome.ok ⟨["a"], [["1"]]⟩) ⟨["a"], [["1"]]⟩
     (by rw [query_data_ok_nonempty ⟨["a"], [["1"]]⟩ (by decide)])⟩

/-- C2: when `create_engine` raises an ImportError, `create_db_engine`
logs the missing-dependency message, but the `except ImportError:`
clause binds no name and its `raise e` raises a NameError, so what
propagates to the caller is the NameError, not the ImportError. -/
theorem create_db_engine_import_error_bug :
    (create_db_engine
        (EngineOutcome.raises ⟨ExcKind.importError, "No module named psycopg2"⟩)
        ProbeOutcome.ok).result
      = Except.error ⟨ExcKind.nameError, nameErrorMsg⟩ ∧
    (create_db_engine
        (EngineOutcome.raises ⟨ExcKind.importError, "No module named psycopg2"⟩)
        ProbeOutcome.ok).logs
      = [⟨LogLevel.error, "SQLAlchemy is required to use this function. Please install it first."⟩] ∧
    (create_db_engine
        (EngineOutcome.raises ⟨ExcKind.importError, "No module named psycopg2"⟩)
        ProbeOutcome.ok).result
      ≠ Except.error ⟨ExcKind.importError, "No module named psycopg2"⟩ := by
  decide

/-- C3: when query execution itself raises (any exception `e` other
than the EmptyResult error), `query_data` propagates that very
exception, does not produce the EmptyResult error, and logs exactly
one error line (whose text depends on whether `e` is a ValueError). -/
theorem query_data_execution_failure_propagates (e : Exc)
    (h : e ≠ emptyResultExc) :
    (query_data (ExecOutcome.raises e)).result = Except.error e ∧
    (query_data (ExecOutcome.raises e)).result ≠ Except.error emptyResultExc ∧
    (query_data (ExecOutcome.raises e)).logs =
      [⟨LogLevel.error,
        (if e.kind = ExcKind.valueError then "SQL query failed. Error: "
         else "An error occurred while querying the database. Error: ") ++ e.msg⟩] := by
  by_cases hk : e.kind = ExcKind.valueError
  · rw [query_data_raises_ve e hk]
    refine ⟨rfl, ?_, by simp [hk]⟩
    simp only [ne_eq, Except.error.injEq]
    exact h
  · rw [query_data_raises_other e hk]
    refine ⟨rfl, ?_, by simp [hk]⟩
    simp only [ne_eq, Except.error.injEq]
    intro he
    exact hk (by rw [he, emptyResultExc])

/-- C3 witness: a concrete driver error (a non-ValueError) propagates
unchanged with one error log line. -/
theorem query_data_execution_failure_propagates_witness :
    (query_data (ExecOutcome.raises ⟨ExcKind.otherError, "syntax error in SELEC"⟩)).result
      = Except.error ⟨ExcKind.otherError, "syntax error in SELEC"⟩ ∧
    (query_data (ExecOutcome.raises ⟨ExcKind.otherError, "syntax error in SELEC"⟩)).result
      ≠ Except.error emptyResultExc ∧
    (query_data (ExecOutcome.raises ⟨ExcKind.otherError, "syntax error in SELEC"⟩)).logs =
      [⟨LogLevel.error,
        (if ExcKind.otherError = ExcKind.valueError then "SQL query failed. Error: "
         else "An error occurred while querying the database. Error: ") ++ "syntax error in SELEC"⟩] :=
  query_data_execution_failure_propagates ⟨ExcKind.otherError, "syntax error in SELEC"⟩ (by decide)

/-- C4 counterexample: on the zero-row path, `query_data` emits two
error log lines — the empty-DataFrame message emitted before raising,
and the re-raise handler's message — so the count is not one. -/
theorem query_data_empty_logs_twice :
    (query_data (ExecOutcome.ok ⟨["a"], []⟩)).logs =
      [⟨LogLevel.error, emptyMsg⟩,
       ⟨LogLevel.error, "SQL query failed. Error: " ++ emptyMsg⟩] ∧
    (query_data (ExecOutcome.ok ⟨["a"], []⟩)).logs.length ≠ 1 := by
  decide

/-- C4 amended: every call emits exactly one informational line on
success and exactly one error line on failure, except the zero-row
failure of `query_data`, which emits exactly two error lines. -/
theorem log_lines_per_call :
    ((create_db_engine EngineOutcome.ok ProbeOutcome.ok).logs.map LogLine.level
        = [LogLevel.info]) ∧
    (∀ e pr, (create_db_engine (EngineOutcome.raises e) pr).logs.map LogLine.level
        = [LogLevel.error]) ∧
    (∀ e, (create_db_engine EngineOutcome.ok (ProbeOutcome.raises e)).logs.map LogLine.level
        = [LogLevel.error]) ∧
    (∀ df : DataFrame, df.empty = false →
      (query_data (ExecOutcome.ok df)).logs.map LogLine.level = [LogLevel.info]) ∧
    (∀ df : DataFrame, df.empty = true →
      (query_data (ExecOutcome.ok df)).logs.map LogLine.level = [LogLevel.error, LogLevel.error]) ∧
    (∀ e, (query_data (ExecOutcome.raises e)).logs.map LogLine.level = [LogLevel.error]) ∧
    (∀ df, (read_from_web_CSV (FetchOutcome.ok df)).logs.map LogLine.level = [LogLevel.info]) ∧
    (∀ e, (read_from_web_CSV (FetchOutcome.raises e)).logs.map LogLine.level = [LogLevel.error]) := by
  refine ⟨by rw [create_db_engine_ok]; rfl, ?_, ?_, ?_, ?_, ?_, ?_, ?_⟩
  · intro e pr
    by_cases hk : e.kind = ExcKind.importError
    · rw [create_db_engine_create_import e pr hk]; rfl
    · rw [create_db_engine_create_other e pr hk]; rfl
  · intro e
    by_cases hk : e.kind = ExcKind.importError
    · rw [create_db_engine_probe_import e hk]; rfl
    · rw [create_db_engine_probe_other e hk]; rfl
  · intro df h
    rw [query_data_ok_nonempty df h]; rfl
  · intro df h
    rw [query_data_ok_empty df h]; rfl
  · intro e
    by_cases hk : e.kind = ExcKind.valueError
    · rw [query_data_raises_ve e hk]; rfl
    · rw [query_data_raises_other e hk]; rfl
  · intro df
    rw [read_from_web_CSV_ok df]; rfl
  · intro e
    by_cases hk : e.kind = ExcKind.emptyDataError
    · rw [read_from_web_CSV_raises_ede e hk]; rfl
    · rw [read_from_web_CSV_raises_other e hk]; rfl

/-- C4 amended, witness: one info line on a concrete nonempty success
and two error lines on a concrete zero-row failure. -/
theorem log_lines_per_call_witness :
    (query_data (ExecOutcome.ok ⟨["b"], [["2"]]⟩)).logs.map LogLine.level = [LogLevel.info] ∧
    (query_data (ExecOutcome.ok ⟨["b"], []⟩)).logs.map LogLine.level
      = [LogLevel.error, LogLevel.error] :=
  ⟨log_lines_per_call.2.2.2.1 ⟨["b"], [["2"]]⟩ (by decide),
   log_lines_per_call.2.2.2.2.1 ⟨["b"], []⟩ (by decide)⟩

/-- C5: `read_from_web_CSV` classifies failures by exception type —
`pd.errors.EmptyDataError` (the unparseable-CSV case, the spec's
InvalidCsvSource) gets the check-the-URL guidance log and is
re-raised; every other exception (the spec's FetchError) is re-raised
carrying the underlying cause after the generic error log. -/
theorem read_from_web_CSV_error_classification (e : Exc) :
    (e.kind = ExcKind.emptyDataError →
      (read_from_web_CSV (FetchOutcome.raises e)).result = Except.error e ∧
      (read_from_web_CSV (FetchOutcome.raises e)).logs =
        [⟨LogLevel.error,
          "The URL does not point to a valid CSV file. Please check the URL and try again."⟩]) ∧
    (e.kind ≠ ExcKind.emptyDataError →
      (read_from_web_CSV (FetchOutcome.raises e)).result = Except.error e ∧
      (read_from_web_CSV (FetchOutcome.raises e)).logs =
        [⟨LogLevel.error, "Failed to read CSV from the web. Error: " ++ e.msg⟩]) := by
  constructor
  · intro h
    rw [read_from_web_CSV_raises_ede e h]
    exact ⟨rfl, rfl⟩
  · intro h
    rw [read_from_web_CSV_raises_other e h]
    exact ⟨rfl, rfl⟩

/-- C5 witness: a concrete EmptyDataError gets the guidance log, and a
concrete timeout error gets the generic log; both propagate. -/
theorem read_from_web_CSV_error_classification_witness :
    ((read_from_web_CSV (FetchOutcome.raises ⟨ExcKind.emptyDataError, "No columns to parse from file"⟩)).result
        = Except.error ⟨ExcKind.emptyDataError, "No columns to parse from file"⟩ ∧
      (read_from_web_CSV (FetchOutcome.raises ⟨ExcKind.emptyDataError, "No columns to parse from file"⟩)).logs
        = [⟨LogLevel.error,
            "The URL does not point to a valid CSV file. Please check the URL and try again."⟩]) ∧
    ((read_from_web_CSV (FetchOutcome.raises ⟨ExcKind.otherError, "connection timed out"⟩)).result
        = Except.error ⟨ExcKind.otherError, "connection timed out"⟩ ∧
      (read_from_web_CSV (FetchOutcome.raises ⟨ExcKind.otherError, "connection timed out"⟩)).logs
        = [⟨LogLevel.error, "Failed to read CSV from the web. Error: " ++ "connection timed out"⟩]) :=
  ⟨(read_from_web_CSV_error_classification ⟨ExcKind.emptyDataError, "No columns to parse from file"⟩).1 rfl,
   (read_from_web_CSV_error_classification ⟨ExcKind.otherError, "connection timed out"⟩).2 (by decide)⟩

/-- C6: on a well-formed CSV text (a header line followed by nonempty
data lines), `read_from_web_CSV` returns a table whose columns are the
comma-separated header fields and whose row count equals the number of
data lines; on the concrete text "a,b\n1,2\n3,4" it returns the
2-row, 2-column table with rows (1,2) and (3,4). -/
theorem read_from_web_CSV_wellformed_csv (header : String) (dataLines : List String)
    (h : ∀ l ∈ dataLines, l.isEmpty = false) :
    (read_from_web_CSV (FetchOutcome.ok (parseCsvLines (header :: dataLines)))).result
        = Except.ok (parseCsvLines (header :: dataLines)) ∧
    (parseCsvLines (header :: dataLines)).columns = splitString ',' header ∧
    (parseCsvLines (header :: dataLines)).rows.length = dataLines.length ∧
    parseCsv "a,b\n1,2\n3,4" = ⟨["a", "b"], [["1", "2"], ["3", "4"]]⟩ ∧
    (read_from_web_CSV (FetchOutcome.ok (parseCsv "a,b\n1,2\n3,4"))).result
        = Except.ok ⟨["a", "b"], [["1", "2"], ["3", "4"]]⟩ := by
  refine ⟨rfl, rfl, ?_, by decide, by decide⟩
  have hf : dataLines.filter (fun l => !l.isEmpty) = dataLines := by
    rw [List.filter_eq_self]
    intro a ha
    rw [h a ha]
    rfl
  simp [parseCsvLines, hf]

/-- C6 witness: instantiated at the header "a,b" and the data lines
"1,2" and "3,4". -/
theorem read_from_web_CSV_wellformed_csv_witness :
    (read_from_web_CSV (FetchOutcome.ok (parseCsvLines ("a,b" :: ["1,2", "3,4"])))).result
        = Except.ok (parseCsvLines ("a,b" :: ["1,2", "3,4"])) ∧
    (parseCsvLines ("a,b" :: ["1,2", "3,4"])).columns = splitString ',' "a,b" ∧
    (parseCsvLines ("a,b" :: ["1,2", "3,4"])).rows.length = ["1,2", "3,4"].length ∧
    parseCsv "a,b\n1,2\n3,4" = ⟨["a", "b"], [["1", "2"], ["3", "4"]]⟩ ∧
    (read_from_web_CSV (FetchOutcome.ok (parseCsv "a,b\n1,2\n3,4"))).result
        = Except.ok ⟨["a", "b"], [["1", "2"], ["3", "4"]]⟩ :=
  read_from_web_CSV_wellformed_csv "a,b" ["1,2", "3,4"] (by decide)

/-- C7: on success `create_db_engine` opens and closes exactly one
probe connection, logs exactly one informational line, and returns the
engine; any non-ImportError failure of engine construction or of the
probe propagates the original exception after one error log line
naming the cause. -/
theorem create_db_engine_probe_and_failure :
    (create_db_engine EngineOutcome.ok ProbeOutcome.ok =
      { result := Except.ok ()
        logs := [⟨LogLevel.info, "Database engine created successfully."⟩]
        conns := [ConnEvent.openConn, ConnEvent.closeConn] }) ∧
    (∀ e pr, e.kind ≠ ExcKind.importError →
      (create_db_engine (EngineOutcome.raises e) pr).result = Except.error e ∧
      (create_db_engine (EngineOutcome.raises e) pr).logs =
        [⟨LogLevel.error, "Failed to create database engine. Error: " ++ e.msg⟩]) ∧
    (∀ e, e.kind ≠ ExcKind.importError →
      (create_db_engine EngineOutcome.ok (ProbeOutcome.raises e)).result = Except.error e ∧
      (create_db_engine EngineOutcome.ok (ProbeOutcome.raises e)).logs =
        [⟨LogLevel.error, "Failed to create database engine. Error: " ++ e.msg⟩]) := by
  refine ⟨create_db_engine_ok, ?_, ?_⟩
  · intro e pr h
    rw [create_db_engine_create_other e pr h]
    exact ⟨rfl, rfl⟩
  · intro e h
    rw [create_db_engine_probe_other e h]
    exact ⟨rfl, rfl⟩

/-- C7 witness: a concrete construction failure and a concrete probe
failure, neither an ImportError, each propagate with one error log. -/
theorem create_db_engine_probe_and_failure_witness :
    ((create_db_engine (EngineOutcome.raises ⟨ExcKind.otherError, "malformed url"⟩) ProbeOutcome.ok).result
        = Except.error ⟨ExcKind.otherError, "malformed url"⟩ ∧
      (create_db_engine (EngineOutcome.raises ⟨ExcKind.otherError, "malformed url"⟩) ProbeOutcome.ok).logs
        = [⟨LogLevel.error, "Failed to create database engine. Error: " ++ "malformed url"⟩]) ∧
    ((create_db_engine EngineOutcome.ok (ProbeOutcome.raises ⟨ExcKind.otherError, "unable to open database file"⟩)).result
        = Except.error ⟨ExcKind.otherError, "unable to open database file"⟩ ∧
      (create_db_engine EngineOutcome.ok (ProbeOutcome.raises ⟨ExcKind.otherError, "unable to open database file"⟩)).logs
        = [⟨LogLevel.error, "Failed to create database engine. Error: " ++ "unable to open database file"⟩]) :=
  ⟨create_db_engine_probe_and_failure.2.1 ⟨ExcKind.otherError, "malformed url"⟩ ProbeOutcome.ok (by decide),
   create_db_engine_probe_and_failure.2.2 ⟨ExcKind.otherError, "unable to open database file"⟩ (by decide)⟩

/-- C8: `query_data` releases the connection on every exit path: for
every execution outcome — success, zero-row EmptyResult failure, or an
exception from execution — the connection trace is exactly one open
followed by one close, both emitted by the `with` block before any
error propagates (the emptiness check and its raise run after the
`with` block has closed the connection). -/
theorem query_data_connection_released :
    ∀ o : ExecOutcome,
      (query_data o).conns = [ConnEvent.openConn, ConnEvent.closeConn] := by
  intro o
  cases o with
  | ok df =>
    by_cases hd : df.empty = true
    · rw [query_data_ok_empty df hd]
    · rw [query_data_ok_nonempty df (Bool.eq_false_iff.mpr hd)]
  | raises e =>
    by_cases hk : e.kind = ExcKind.valueError
    · rw [query_data_raises_ve e hk]
    · rw [query_data_raises_other e hk]

/-- C9: the propagate-unchanged policy is broken in one branch: when
engine creation raises an ImportError, the caller does not receive
that very exception — it receives the NameError produced by the
unbound `raise e` in the `except ImportError:` clause. -/
theorem error_propagation_import_branch :
    (create_db_engine
        (EngineOutcome.raises ⟨ExcKind.importError, "No module named MySQLdb"⟩)
        ProbeOutcome.ok).result
      ≠ Except.error ⟨ExcKind.importError, "No module named MySQLdb"⟩ ∧
    (create_db_engine
        (EngineOutcome.raises ⟨ExcKind.importError, "No module named MySQLdb"⟩)
        ProbeOutcome.ok).result
      = Except.error ⟨ExcKind.nameError, nameErrorMsg⟩ := by
  decide

/-- C10: `read_from_web_CSV` never inspects its argument string — its
behaviour is a function of the `pd.read_csv` outcome alone, so two
inputs on which `pd.read_csv` behaves the same (for example an HTTPS
URL and a local file path) are processed identically, and any input
whose content parses is returned as the parsed table. -/
theorem read_from_web_CSV_no_url_validation
    (readCsv : String → FetchOutcome) (u v : String)
    (h : readCsv u = readCsv v) :
    read_from_web_CSV_url readCsv u = read_from_web_CSV_url readCsv v ∧
    (∀ df, readCsv u = FetchOutcome.ok df →
      (read_from_web_CSV_url readCsv u).result = Except.ok df) := by
  constructor
  · unfold read_from_web_CSV_url
    rw [h]
  · intro df hdf
    unfold read_from_web_CSV_url
    rw [hdf, read_from_web_CSV_ok df]

/-- C10 witness: a URL and a plain file path mapped to the same parsed
content produce identical runs, and the content is returned. -/
theorem read_from_web_CSV_no_url_validation_witness :
    read_from_web_CSV_url (fun _ => FetchOutcome.ok ⟨["a"], [["1"]]⟩)
        "https://example.com/data.csv"
      = read_from_web_CSV_url (fun _ => FetchOutcome.ok ⟨["a"], [["1"]]⟩)
        "local_data.csv" ∧
    (read_from_web_CSV_url (fun _ => FetchOutcome.ok ⟨["a"], [["1"]]⟩)
        "https://example.com/data.csv").result
      = Except.ok ⟨["a"], [["1"]]⟩ :=
  ⟨(read_from_web_CSV_no_url_validation (fun _ => FetchOutcome.ok ⟨["a"], [["1"]]⟩)
      "https://example.com/data.csv" "local_data.csv" rfl).1,
   (read_from_web_CSV_no_url_validation (fun _ => FetchOutcome.ok ⟨["a"], [["1"]]⟩)
      "https://example.com/data.csv" "local_data.csv" rfl).2 ⟨["a"], [["1"]]⟩ rfl⟩
